import Mathlib

/-!
Verification of the synchronization engine of spotify-videoclips.

Shallow embedding of:
  * src/spotify_videos/__main__.py  (format_name, get_url, wait_for_connection,
    play_videos_linux)
  * src/main.py                     (the legacy track-change wait loop)
  * src/spotivids/gui/window.py     (MainWindow.start, wait_for_connection,
    change_video_status, change_video_position, play_video)
  * src/spotivids/player/vlc.py     (VLCPlayer)
  * src/spotivids/player/mpv.py     (MpvPlayer)

Python exceptions are modelled with Option / explicit flags, prints with an
accumulated list of messages, and native player calls with an explicit trace.
-/

/-- The outcome of one `connect()` call of a Source.  `notReady` models the
`ConnectionNotReady` exception raised by the APIs, `success` a normal return. -/
inductive ConnectResult
  | success
  | notReady
deriving DecidableEq, Repr

/-- src/spotify_videos/__main__.py, `format_name(artist, title)`:
an artist of `None` or the empty string formats to the title alone,
otherwise to `artist - title`.  `none` models Python `None`. -/
def format_name (artist : Option String) (title : String) : String :=
  match artist with
  | none => title
  | some a => if a = "" then title else a ++ " - " ++ title

/-- src/main.py, the body of `main`: after playing the current track, the code
loops reading `spotify.get_name()` and breaks (recursing into `main`, i.e.
emitting one detection and one `vlc.play_video` call) exactly when the
formatted name of the observation differs from the stored formatted `name`.
The result collects, in order, the observations for which a track change was
detected (each of which triggers exactly one player start). -/
def mainTrackLoop : (Option String × String) → List (Option String × String) →
    List (Option String × String)
  | _, [] => []
  | cur, o :: rest =>
    if format_name o.1 o.2 = format_name cur.1 cur.2 then
      mainTrackLoop cur rest
    else
      o :: mainTrackLoop o rest

/-- Result of the CLI bootstrap loop: the returned boolean, everything printed
to stdout, and the number of `connect()` calls performed. -/
structure CliResult where
  result : Bool
  printed : List String
  attempts : Nat
deriving DecidableEq, Repr

/-- src/spotify_videos/__main__.py, the `while counter < attempts` loop of
`wait_for_connection`.  `remaining = attempts - counter` counts the iterations
left, `connect i` is the outcome of the connect call of iteration `i`, and
`cancel i` is true when a `KeyboardInterrupt` arrives during the sleep of
iteration `i` (which `break`s, skipping the `else: print("Timed out")`).
`n` counts the connect calls made so far. -/
def cliLoop (connect : Nat → ConnectResult) (cancel : Nat → Bool) (msg : String) :
    Nat → Nat → List String → Nat → CliResult
  | 0, _, printed, n => ⟨false, printed ++ ["Timed out"], n⟩
  | remaining + 1, counter, printed, n =>
    match connect counter with
    | .success => ⟨true, printed, n + 1⟩
    | .notReady =>
      let printed2 := if counter = 0 then printed ++ [msg] else printed
      if cancel counter then ⟨false, printed2, n + 1⟩
      else cliLoop connect cancel msg remaining (counter + 1) printed2 (n + 1)

/-- src/spotify_videos/__main__.py, `wait_for_connection(connect, msg,
attempts=30)`: runs the retry loop starting from `counter = 0`. -/
def wait_for_connection (connect : Nat → ConnectResult) (cancel : Nat → Bool)
    (msg : String) (attempts : Nat) : CliResult :=
  cliLoop connect cancel msg attempts 0 [] 0

/-- State of the Qt bootstrap of src/spotivids/gui/window.py
(`MainWindow.start` / `MainWindow.wait_for_connection`).  `connCounter` is
`self.conn_counter`, `connAttempts` is `self.conn_attempts` (120),
`timerActive` is whether `self.conn_timer` is running, `timerDeleted` records
`del self.conn_timer`, `showCount` counts the calls to `self.conn_label.show()`,
`attempts` counts the `self.conn_fn()` calls, `connected` records the success
branch having run, `printed` the stdout prints, `exited` the argument of
`QCoreApplication.exit`, and `raised` that an `AttributeError` escaped the
slot (accessing `self.conn_timer` after it was deleted). -/
structure GuiState where
  connCounter : Nat
  connAttempts : Nat
  timerActive : Bool
  timerDeleted : Bool
  loadingShown : Bool
  connLabelShown : Bool
  showCount : Nat
  attempts : Nat
  connected : Bool
  printed : List String
  exited : Option Int
  raised : Bool
deriving DecidableEq, Repr

/-- The state set up by `MainWindow.start`: counter 0, 120 attempts allowed,
timer running every second, loading label shown, connection label hidden. -/
def guiStart : GuiState :=
  { connCounter := 0
    connAttempts := 120
    timerActive := true
    timerDeleted := false
    loadingShown := true
    connLabelShown := false
    showCount := 0
    attempts := 0
    connected := false
    printed := []
    exited := none
    raised := false }

/-- One firing of the QTimer, i.e. one call of
`MainWindow.wait_for_connection` (src/spotivids/gui/window.py), with `r` the
outcome of `self.conn_fn()`:
1. if `conn_counter == 1`, swap the loading label for the waiting label;
2. call `conn_fn`; on success stop and delete the timer, hide the labels and
   run the success branch; on `ConnectionNotReady`, pass;
3. increment `conn_counter`;
4. if `conn_counter >= conn_attempts`, print the timeout message and stop the
   timer — but after a success the timer object was deleted, so
   `self.conn_timer.stop()` raises and `QCoreApplication.exit(1)` is not
   reached. -/
def guiTick (r : ConnectResult) (st : GuiState) : GuiState :=
  let st1 :=
    if st.connCounter = 1 then
      { st with loadingShown := false, connLabelShown := true,
                showCount := st.showCount + 1 }
    else st
  let st2 := { st1 with attempts := st1.attempts + 1 }
  let st3 :=
    match r with
    | .notReady => st2
    | .success =>
      { st2 with timerActive := false, timerDeleted := true,
                 connLabelShown := false, loadingShown := false,
                 connected := true }
  let st4 := { st3 with connCounter := st3.connCounter + 1 }
  if st4.connAttempts ≤ st4.connCounter then
    let st5 := { st4 with printed := st4.printed ++ ["Timed out waiting for Spotify"] }
    if st5.timerDeleted then { st5 with raised := true }
    else { st5 with timerActive := false, exited := some 1 }
  else st4

/-- Repeated timer firings: the QTimer keeps invoking the slot while it is
running; once stopped, no further firings happen.  The list is the sequence of
connect outcomes the Source would produce. -/
def guiRun : List ConnectResult → GuiState → GuiState
  | [], st => st
  | r :: rest, st => if st.timerActive then guiRun rest (guiTick r st) else st

/-- Native calls issued by the player implementations. -/
inductive NativeCall
  | vlcPause
  | vlcPlay
  | vlcSetMedia
  | vlcSetTime (ms : Int)
  | mpvWriteProperty (pauseValue : Bool)
  | mpvPlay
  | mpvWaitProperty (prop : String)
  | mpvSeek (ms : Int)
deriving DecidableEq, Repr

/-- src/spotivids/player/vlc.py: the only player state the `pause` logic
observes is `self._player.is_playing()`. -/
structure VlcState where
  playing : Bool
deriving DecidableEq, Repr

/-- src/spotivids/player/vlc.py, the `pause` property getter:
`not self._player.is_playing()`. -/
def vlcPauseGet (st : VlcState) : Bool := !st.playing

/-- src/spotivids/player/vlc.py, the `pause` property setter: reads
`is_paused`, then calls the native `pause()` only when pausing a playing
video and the native `play()` only when unpausing a paused one; otherwise no
native call is made. -/
def vlcPauseSet (doPause : Bool) (st : VlcState) : VlcState × List NativeCall :=
  let isPaused := vlcPauseGet st
  if doPause && !isPaused then (⟨false⟩, [.vlcPause])
  else if !doPause && isPaused then (⟨true⟩, [.vlcPlay])
  else (st, [])

/-- src/spotivids/player/vlc.py, the `position` setter:
`self._player.set_time(ms)` with no wait and no transformation of `ms`. -/
def vlcPositionSet (ms : Int) (st : VlcState) : VlcState × List NativeCall :=
  (st, [.vlcSetTime ms])

/-- src/spotivids/player/vlc.py, `start_video(media, is_playing=True)`:
loads the new media (the comment states VLC starts paused, so the loaded
media is not playing), then `if is_playing: self.pause = False`. -/
def vlcStartVideo (isPlaying : Bool) (_st : VlcState) : VlcState × List NativeCall :=
  let st : VlcState := ⟨false⟩
  let calls : List NativeCall := [.vlcSetMedia]
  if isPlaying then
    let r := vlcPauseSet false st
    (r.1, calls ++ r.2)
  else (st, calls)

/-- src/spotivids/player/mpv.py: the state is the native `pause` property. -/
structure MpvState where
  pause : Bool
deriving DecidableEq, Repr

/-- src/spotivids/player/mpv.py, the `pause` setter:
`self._mpv.pause = do_pause` — an unconditional native property write. -/
def mpvPauseSet (doPause : Bool) (_st : MpvState) : MpvState × List NativeCall :=
  (⟨doPause⟩, [.mpvWriteProperty doPause])

/-- src/spotivids/player/mpv.py, the `position` setter:
`self._mpv.wait_for_property("seekable")` — a blocking wait — followed by
`self._mpv.seek(ms / 1000, reference="absolute")` (the trace records the
millisecond argument handed to the seek). -/
def mpvPositionSet (ms : Int) (st : MpvState) : MpvState × List NativeCall :=
  (st, [.mpvWaitProperty "seekable", .mpvSeek ms])

/-- src/spotivids/player/mpv.py, `start_video(url, is_playing=True)`:
`self._mpv.play(url)` (the comment states mpv starts automatically playing
the video, so the pause property is false afterwards), then
`if not is_playing: self.pause = True`. -/
def mpvStartVideo (isPlaying : Bool) (_st : MpvState) : MpvState × List NativeCall :=
  let st : MpvState := ⟨false⟩
  let calls : List NativeCall := [.mpvPlay]
  if !isPlaying then
    let r := mpvPauseSet true st
    (r.1, calls ++ r.2)
  else (st, calls)

/-- src/spotivids/gui/window.py, `change_video_status(is_playing)`:
`self.player.pause = not is_playing`, for the VLC player. -/
def change_video_status_vlc (isPlaying : Bool) (st : VlcState) :
    VlcState × List NativeCall :=
  vlcPauseSet (!isPlaying) st

/-- src/spotivids/gui/window.py, `change_video_status(is_playing)`:
`self.player.pause = not is_playing`, for the mpv player. -/
def change_video_status_mpv (isPlaying : Bool) (st : MpvState) :
    MpvState × List NativeCall :=
  mpvPauseSet (!isPlaying) st

/-- Two consecutive `StatusChanged` events with the same value delivered to
the VLC player; the trace concatenates the native calls of both. -/
def twoStatusVlc (isPlaying : Bool) (st : VlcState) : VlcState × List NativeCall :=
  let r1 := change_video_status_vlc isPlaying st
  let r2 := change_video_status_vlc isPlaying r1.1
  (r2.1, r1.2 ++ r2.2)

/-- Two consecutive `StatusChanged` events with the same value delivered to
the mpv player; the trace concatenates the native calls of both. -/
def twoStatusMpv (isPlaying : Bool) (st : MpvState) : MpvState × List NativeCall :=
  let r1 := change_video_status_mpv isPlaying st
  let r2 := change_video_status_mpv isPlaying r1.1
  (r2.1, r1.2 ++ r2.2)

/-- src/spotivids/gui/window.py, `change_video_position(ms)`:
`self.player.position = ms` with no clamping, for the VLC player. -/
def change_video_position_vlc (ms : Int) (st : VlcState) :
    VlcState × List NativeCall :=
  vlcPositionSet ms st

/-- src/spotivids/gui/window.py, `change_video_position(ms)`:
`self.player.position = ms` with no clamping, for the mpv player. -/
def change_video_position_mpv (ms : Int) (st : MpvState) :
    MpvState × List NativeCall :=
  mpvPositionSet ms st

/-- Player-level actions of the engine entry points (`play_video` and the
legacy `play_videos_linux` loop body). -/
inductive EngineAction
  | startVideo (url : String) (isPlaying : Bool)
  | setPosition (ms : Int)
  | busyWaitPositionNonzero
  | printLyrics
deriving DecidableEq, Repr

/-- Result of one `MainWindow.play_video` call: whether an exception escaped
the slot, the player actions performed, and how many times the resolver
(`self.youtube.get_url`) was invoked. -/
structure PlayVideoResult where
  propagated : Bool
  actions : List EngineAction
  resolveCalls : Nat
deriving DecidableEq, Repr

/-- src/spotivids/gui/window.py, `play_video`:
`url = self.youtube.get_url(...)` has no surrounding try, so a resolver
failure (modelled as `none`; the spec names it `VideoResolutionFailed` /
`NotFound`) escapes the slot with no player action taken.  On success the
video is started with the current `is_playing`, then
`try: self.player.position = self.api.position
 except NotImplementedError: self.player.position = 0` —
`apiPosition = none` models a Source without position support raising
`NotImplementedError`, which is caught and replaced by a seek to 0.
Lyrics are printed afterwards when enabled. -/
def play_video (resolve : Option String × String → Option String)
    (track : Option String × String) (isPlaying : Bool)
    (apiPosition : Option Int) (lyrics : Bool) : PlayVideoResult :=
  match resolve track with
  | none => ⟨true, [], 1⟩
  | some url =>
    let pos : Int :=
      match apiPosition with
      | some p => p
      | none => 0
    ⟨false, [.startVideo url isPlaying, .setPosition pos] ++
        (if lyrics then [.printLyrics] else []), 1⟩

/-- src/spotify_videos/__main__.py, one iteration of the `while True` body of
`play_videos_linux`: resolve the URL (`get_url`, un-caught on failure), start
the video, and when playing busy-wait (`while player.position == 0: pass`)
until the player reports a nonzero position, then apply once the wall-clock
delta (`elapsedMs` milliseconds between `start_time` and the end of the busy
wait) as `player.position = offset`.  Nothing re-corrects it afterwards. -/
def linuxIteration (resolve : Option String × String → Option String)
    (track : Option String × String) (isPlaying : Bool)
    (elapsedMs : Nat) (lyrics : Bool) : Option (List EngineAction) :=
  match resolve track with
  | none => none
  | some url =>
    some ([.startVideo url isPlaying] ++
      (if isPlaying then
        [.busyWaitPositionNonzero, .setPosition (elapsedMs : Int)]
      else []) ++
      (if lyrics then [.printLyrics] else []))

/-- The GUI bootstrap state reached after `j` consecutive failed connection
attempts (`j ≤ 119`): the counter and attempt count are both `j`, the timer
is still running, and the waiting label has been shown (once) exactly when at
least two ticks have happened. -/
def guiFalseState (j : Nat) : GuiState :=
  { connCounter := j
    connAttempts := 120
    timerActive := true
    timerDeleted := false
    loadingShown := decide (j < 2)
    connLabelShown := decide (2 ≤ j)
    showCount := if 2 ≤ j then 1 else 0
    attempts := j
    connected := false
    printed := []
    exited := none
    raised := false }

/-! ## Helper lemmas -/

/-- The method `MainWindow.start` sets up exactly the zero-failures state. -/
theorem guiStart_eq_falseState : guiStart = guiFalseState 0 := rfl

/-- A stopped timer never fires again: `guiRun` is the identity once the
timer is inactive. -/
theorem guiRun_inactive (l : List ConnectResult) (st : GuiState)
    (h : st.timerActive = false) : guiRun l st = st := by
  cases l with
  | nil => rfl
  | cons r rest => simp [guiRun, h]

/-- Splitting a run of timer firings. -/
theorem guiRun_append (a b : List ConnectResult) (st : GuiState) :
    guiRun (a ++ b) st = guiRun b (guiRun a st) := by
  induction a generalizing st with
  | nil => rfl
  | cons r rest ih =>
    by_cases h : st.timerActive
    · simp [guiRun, h, ih]
    · simp only [Bool.not_eq_true] at h
      simp [guiRun, h, guiRun_inactive _ _ h]

/-- One more failed attempt advances the failed-attempts state, as long as
the attempt limit is not yet reached. -/
theorem guiFalseState_step (j : Nat) (h : j < 119) :
    guiTick .notReady (guiFalseState j) = guiFalseState (j + 1) := by
  match j with
  | 0 => rfl
  | 1 => rfl
  | k + 2 =>
    have h1 : ¬(k + 2 = 1) := by omega
    have h2 : ¬(120 ≤ k + 2 + 1) := by omega
    have f1 : decide (k + 2 < 2) = false := decide_eq_false (by omega)
    have f2 : decide (k + 3 < 2) = false := decide_eq_false (by omega)
    have f3 : decide (2 ≤ k + 2) = true := decide_eq_true (by omega)
    have f4 : decide (2 ≤ k + 3) = true := decide_eq_true (by omega)
    have f5 : (if 2 ≤ k + 2 then (1 : Nat) else 0) = 1 := if_pos (by omega)
    have f6 : (if 2 ≤ k + 3 then (1 : Nat) else 0) = 1 := if_pos (by omega)
    simp [guiTick, guiFalseState, h1, h2, f1, f2, f3, f4, f5, f6]

/-- Iterating failed attempts from the `i`-failures state reaches the
`i + j`-failures state while the limit is not hit. -/
theorem guiRun_replicate (j i : Nat) (h : i + j ≤ 119) :
    guiRun (List.replicate j .notReady) (guiFalseState i) = guiFalseState (i + j) := by
  induction j generalizing i with
  | zero => rfl
  | succ m ih =>
    rw [List.replicate_succ]
    have hact : (guiFalseState i).timerActive = true := rfl
    simp only [guiRun, hact, if_true]
    rw [guiFalseState_step i (by omega),
      show i + (m + 1) = (i + 1) + m from by omega]
    exact ih (i + 1) (by omega)

/-- The tick always increments the connection counter, in every branch. -/
theorem guiTick_connCounter (r : ConnectResult) (st : GuiState) :
    (guiTick r st).connCounter = st.connCounter + 1 := by
  cases r <;> simp only [guiTick] <;> split_ifs <;> rfl

/-- Once the counter has passed 1, the waiting label is never shown again. -/
theorem guiTick_showCount_of_ne (r : ConnectResult) (st : GuiState)
    (h : ¬st.connCounter = 1) :
    (guiTick r st).showCount = st.showCount := by
  cases r <;> simp only [guiTick, h, if_false] <;> split_ifs <;> rfl

/-- The show count is stable over any continuation of the run once the
counter has reached 2. -/
theorem guiRun_showCount_stable (l : List ConnectResult) (st : GuiState)
    (h : 2 ≤ st.connCounter) : (guiRun l st).showCount = st.showCount := by
  induction l generalizing st with
  | nil => rfl
  | cons r rest ih =>
    by_cases ha : st.timerActive
    · simp only [guiRun, ha, if_true]
      rw [ih (guiTick r st) (by rw [guiTick_connCounter]; omega),
        guiTick_showCount_of_ne r st (by omega)]
    · simp only [Bool.not_eq_true] at ha
      simp [guiRun, ha]

/-- If every observation in the list has the same formatted name as the
stored track, the legacy loop detects nothing. -/
theorem mainTrackLoop_nil_of_all_eq (cur : Option String × String)
    (l : List (Option String × String))
    (h : ∀ x ∈ l, format_name x.1 x.2 = format_name cur.1 cur.2) :
    mainTrackLoop cur l = [] := by
  induction l with
  | nil => rfl
  | cons o rest ih =>
    have ho : format_name o.1 o.2 = format_name cur.1 cur.2 :=
      h o (List.mem_cons_self o rest)
    simp only [mainTrackLoop, if_pos ho]
    exact ih fun x hx => h x (List.mem_cons_of_mem o hx)

/-! ## C2 -/

/-- C2 (counterexample): the legacy loop compares tracks by formatted display
name, not by structural equality of the (artist, title) pair.  The pairs
(Some "A", "B - C") and (Some "A - B", "C") are structurally different yet
format to the same name "A - B - C", so the change is never detected and no
player start happens. -/
theorem C2_counterexample :
    mainTrackLoop (some "A", "B - C") [(some "A - B", "C")] = [] ∧
    ((some "A - B", "C") : Option String × String) ≠ (some "A", "B - C") := by
  constructor
  · rfl
  · decide

/-- C2 (amended): a change of the current track, where two tracks are
compared by equality of their formatted display names, causes exactly one
detection and exactly one player start, and observations whose formatted name
equals the stored one cause none: for any run consisting of observations
equal (by formatted name) to the stored track, then one differing
observation, then observations equal to it, exactly that one detection is
produced. -/
theorem C2_track_change_detection (cur o : Option String × String)
    (pre post : List (Option String × String))
    (hpre : ∀ x ∈ pre, format_name x.1 x.2 = format_name cur.1 cur.2)
    (ho : format_name o.1 o.2 ≠ format_name cur.1 cur.2)
    (hpost : ∀ x ∈ post, format_name x.1 x.2 = format_name o.1 o.2) :
    mainTrackLoop cur (pre ++ o :: post) = [o] := by
  induction pre with
  | nil =>
    simp only [List.nil_append, mainTrackLoop, if_neg ho]
    rw [mainTrackLoop_nil_of_all_eq o post hpost]
  | cons p rest ih =>
    have hp : format_name p.1 p.2 = format_name cur.1 cur.2 :=
      hpre p (List.mem_cons_self p rest)
    simp only [List.cons_append, mainTrackLoop, if_pos hp]
    exact ih fun x hx => hpre x (List.mem_cons_of_mem p hx)

/-- C2 witness: stored track (Some "A", "B"); an identical observation causes
nothing, the change to (Some "A", "C") causes exactly one detection, and the
repeated new track causes nothing more. -/
theorem C2_witness :
    mainTrackLoop (some "A", "B")
      [(some "A", "B"), (some "A", "C"), (some "A", "C")] = [(some "A", "C")] :=
  C2_track_change_detection (some "A", "B") (some "A", "C")
    [(some "A", "B")] [(some "A", "C")]
    (by decide) (by decide) (by decide)

/-! ## C3 -/

/-- C3 (counterexample): the mpv pause setter is not idempotent at the
native-call level.  With the mpv player already paused (pause = true, i.e.
already equal to not false), `StatusChanged(false)` still performs a native
pause-property write; and two consecutive `StatusChanged(false)` events
produce two native calls, not one. -/
theorem C3_counterexample :
    (change_video_status_mpv false ⟨true⟩).2 = [.mpvWriteProperty true] ∧
    (twoStatusMpv false ⟨false⟩).2.length = 2 := by
  constructor <;> rfl

/-- C3 (amended): only the VLC player is idempotent at the native-call level:
a second identical `StatusChanged` to the VLC player performs no native call
(so two consecutive `StatusChanged(false)` yield at most one native pause
call), while the mpv player writes its native pause property on every event
(two writes for two events), although the write is value-idempotent, leaving
the pause state at (not v) either way. -/
theorem C3_pause_idempotence (v : Bool) (vs : VlcState) (ms : MpvState) :
    (change_video_status_vlc v (change_video_status_vlc v vs).1).2 = [] ∧
    (twoStatusVlc v vs).2.length ≤ 1 ∧
    vlcPauseGet (twoStatusVlc v vs).1 = !v ∧
    (twoStatusMpv v ms).2 = [.mpvWriteProperty (!v), .mpvWriteProperty (!v)] ∧
    (twoStatusMpv v ms).1.pause = !v := by
  obtain ⟨pv⟩ := vs
  obtain ⟨pm⟩ := ms
  revert v pv pm
  decide

/-! ## C5 -/

/-- C5 (counterexample): a resolver failure is not recovered locally.
`MainWindow.play_video` has no handler around `self.youtube.get_url`, so the
failure escapes the slot (propagated = true) instead of being absorbed. -/
theorem C5_counterexample :
    (play_video (fun _ => none) (some "Rick Astley", "Never Gonna Give You Up")
      true none false).propagated = true := by
  rfl

/-- C5 (amended): when the resolver fails for the current track, no player
action is taken for it and resolution is attempted exactly once (no retry),
but the failure is propagated out of `play_video` rather than being logged
and absorbed. -/
theorem C5_resolver_failure (resolve : Option String × String → Option String)
    (track : Option String × String) (isPlaying : Bool)
    (apiPosition : Option Int) (lyrics : Bool)
    (h : resolve track = none) :
    play_video resolve track isPlaying apiPosition lyrics = ⟨true, [], 1⟩ := by
  simp only [play_video, h]

/-- C5 witness: a concrete always-failing resolver. -/
theorem C5_witness :
    play_video (fun _ => none) (some "A", "B") true (some 3) true =
      ⟨true, [], 1⟩ :=
  C5_resolver_failure (fun _ => none) (some "A", "B") true (some 3) true rfl

/-! ## C6 -/

/-- C6 (counterexample): when the Source does not support position queries,
`MainWindow.play_video` does not fall back to the wall-clock-delta
estimation: it seeks to 0, while the claimed estimation (implemented only in
the legacy `play_videos_linux`) would seek to the elapsed delta (here 250
ms). -/
theorem C6_counterexample :
    (play_video (fun _ => some "https://video/ab") (some "A", "B") true
        none false).actions =
      [.startVideo "https://video/ab" true, .setPosition 0] ∧
    linuxIteration (fun _ => some "https://video/ab") (some "A", "B") true
        250 false =
      some [.startVideo "https://video/ab" true, .busyWaitPositionNonzero,
        .setPosition 250] ∧
    (0 : Int) ≠ 250 := by
  refine ⟨rfl, rfl, by decide⟩

/-- C6 (amended): the Unsupported condition is never propagated upward — the
`NotImplementedError` is caught inside `play_video` — but the fallback there
is a single seek to position 0, not a wall-clock estimation; the one-shot
wall-clock-delta estimation, applied once with no later correction, exists
only in the legacy `play_videos_linux` loop. -/
theorem C6_position_unsupported_fallback
    (resolve : Option String × String → Option String)
    (track : Option String × String) (isPlaying : Bool) (url : String)
    (elapsedMs : Nat) (h : resolve track = some url) :
    play_video resolve track isPlaying none false =
      ⟨false, [.startVideo url isPlaying, .setPosition 0], 1⟩ ∧
    linuxIteration resolve track true elapsedMs false =
      some [.startVideo url true, .busyWaitPositionNonzero,
        .setPosition (elapsedMs : Int)] := by
  constructor
  · simp [play_video, h]
  · simp [linuxIteration, h]

/-- C6 witness: a concrete resolver and a 250 ms readiness delay. -/
theorem C6_witness :
    play_video (fun _ => some "https://v") (some "A", "B") false none false =
      ⟨false, [.startVideo "https://v" false, .setPosition 0], 1⟩ ∧
    linuxIteration (fun _ => some "https://v") (some "A", "B") true 250 false =
      some [.startVideo "https://v" true, .busyWaitPositionNonzero,
        .setPosition 250] :=
  C6_position_unsupported_fallback (fun _ => some "https://v") (some "A", "B")
    false "https://v" 250 rfl

/-! ## C7 -/

/-- C7 (counterexample): position values are not clamped to be non-negative.
`change_video_position(-500)` hands -500 directly to the native seek of
either player. -/
theorem C7_counterexample :
    (change_video_position_mpv (-500) ⟨false⟩).2 =
      [.mpvWaitProperty "seekable", .mpvSeek (-500)] ∧
    (change_video_position_vlc (-500) ⟨true⟩).2 = [.vlcSetTime (-500)] ∧
    (-500 : Int) < 0 := by
  refine ⟨rfl, rfl, by decide⟩

/-- C7 (amended): every position value handed to the player is passed through
to the native call unmodified — no clamping to the non-negative range is
performed by `change_video_position` or by either position setter. -/
theorem C7_position_passthrough (ms : Int) (vs : VlcState) (mst : MpvState) :
    (change_video_position_vlc ms vs).2 = [.vlcSetTime ms] ∧
    (change_video_position_mpv ms mst).2 =
      [.mpvWaitProperty "seekable", .mpvSeek ms] := by
  exact ⟨rfl, rfl⟩

/-! ## C8 -/

/-- C8 (counterexample): the wait for player readiness is not always a
blocking wait: the legacy `play_videos_linux` waits for the player to start
producing frames with `while player.position == 0: pass`, a CPU-spinning busy
loop, before issuing the position write. -/
theorem C8_counterexample :
    linuxIteration (fun _ => some "https://v") (some "A", "B") true 250 false =
      some [.startVideo "https://v" true, .busyWaitPositionNonzero,
        .setPosition 250] := by
  rfl

/-- C8 (amended): the mpv position setter defers every write behind a
blocking wait on the "seekable" property (the seek is issued only after the
wait, never before), but the legacy CLI readiness wait before the start
offset write is a CPU-spinning busy loop on `player.position`, and the VLC
position setter issues the native write immediately with no wait at all. -/
theorem C8_seekable_wait (ms : Int) (mst : MpvState) (vs : VlcState)
    (resolve : Option String × String → Option String)
    (track : Option String × String) (url : String) (elapsedMs : Nat)
    (h : resolve track = some url) :
    (change_video_position_mpv ms mst).2 =
      [.mpvWaitProperty "seekable", .mpvSeek ms] ∧
    linuxIteration resolve track true elapsedMs false =
      some ([.startVideo url true] ++
        [.busyWaitPositionNonzero, .setPosition (elapsedMs : Int)]) ∧
    (change_video_position_vlc ms vs).2 = [.vlcSetTime ms] := by
  refine ⟨rfl, ?_, rfl⟩
  simp [linuxIteration, h]

/-- C8 witness: concrete resolver, track and delay. -/
theorem C8_witness :
    (change_video_position_mpv 100 ⟨false⟩).2 =
      [.mpvWaitProperty "seekable", .mpvSeek 100] ∧
    linuxIteration (fun _ => some "https://v") (some "A", "B") true 250 false =
      some ([.startVideo "https://v" true] ++
        [.busyWaitPositionNonzero, .setPosition 250]) :=
  ⟨(C8_seekable_wait 100 ⟨false⟩ ⟨true⟩ (fun _ => some "https://v")
      (some "A", "B") "https://v" 250 rfl).1,
   (C8_seekable_wait 100 ⟨false⟩ ⟨true⟩ (fun _ => some "https://v")
      (some "A", "B") "https://v" 250 rfl).2.1⟩

/-! ## C10 -/

/-- C10: after `start_video(url, is_playing)` both players converge to the
same observable pause state: the pause flag equals (not is_playing).  VLC
loads the media stopped and issues the native `play()` exactly when
`is_playing` is true; mpv starts playing automatically and writes the native
pause property exactly when `is_playing` is false. -/
theorem C10_start_video_pause_state (isPlaying : Bool) (vs : VlcState)
    (ms : MpvState) :
    vlcPauseGet (vlcStartVideo isPlaying vs).1 = !isPlaying ∧
    (mpvStartVideo isPlaying ms).1.pause = !isPlaying ∧
    (NativeCall.vlcPlay ∈ (vlcStartVideo isPlaying vs).2 ↔ isPlaying = true) ∧
    (NativeCall.mpvWriteProperty true ∈ (mpvStartVideo isPlaying ms).2 ↔
      isPlaying = false) := by
  obtain ⟨pv⟩ := vs
  obtain ⟨pm⟩ := ms
  revert isPlaying pv pm
  decide

/-! ## C1 -/

/-- C1 (counterexample): an attempt that succeeds does not always terminate
the bootstrap with the success outcome.  When the success happens exactly on
the 120th (final) attempt, the code still runs the timeout branch: the
"Timed out waiting for Spotify" message is printed and the access to the
already-deleted timer raises, so the run ends connected yet surfacing the
timeout outcome. -/
theorem C1_counterexample :
    (guiRun (List.replicate 119 .notReady ++ [.success]) guiStart).connected
        = true ∧
    (guiRun (List.replicate 119 .notReady ++ [.success]) guiStart).printed =
      ["Timed out waiting for Spotify"] ∧
    (guiRun (List.replicate 119 .notReady ++ [.success]) guiStart).raised
        = true := by
  have h : guiRun (List.replicate 119 .notReady ++ [.success]) guiStart =
      guiRun [.success] (guiFalseState 119) := by
    rw [guiRun_append, guiStart_eq_falseState, guiRun_replicate 119 0 (by omega)]
  rw [h]
  refine ⟨rfl, rfl, rfl⟩

/-- C1 (amended): with a connect function that raises NotReady on every call,
the GUI bootstrap performs exactly 120 connection attempts (one per timer
tick), then terminates with the timeout outcome (message printed, exit code
1) and performs no further attempts; and any attempt that succeeds strictly
before the 120th terminates the loop immediately with the success outcome
(connected, no timeout message, no exit) after exactly k + 1 attempts.  A
success exactly on the 120th attempt additionally triggers the timeout
branch. -/
theorem C1_bootstrap_bounded_retry :
    (∀ extra : List ConnectResult,
      (guiRun (List.replicate 120 .notReady ++ extra) guiStart).attempts = 120 ∧
      (guiRun (List.replicate 120 .notReady ++ extra) guiStart).connected = false ∧
      (guiRun (List.replicate 120 .notReady ++ extra) guiStart).exited = some 1 ∧
      (guiRun (List.replicate 120 .notReady ++ extra) guiStart).printed =
        ["Timed out waiting for Spotify"]) ∧
    (∀ k : Nat, k < 119 → ∀ extra : List ConnectResult,
      (guiRun (List.replicate k .notReady ++ .success :: extra) guiStart).connected
          = true ∧
      (guiRun (List.replicate k .notReady ++ .success :: extra) guiStart).exited
          = none ∧
      (guiRun (List.replicate k .notReady ++ .success :: extra) guiStart).raised
          = false ∧
      (guiRun (List.replicate k .notReady ++ .success :: extra) guiStart).printed
          = [] ∧
      (guiRun (List.replicate k .notReady ++ .success :: extra) guiStart).attempts
          = k + 1) := by
  constructor
  · intro extra
    have hsplit : (List.replicate 120 ConnectResult.notReady ++ extra) =
        List.replicate 119 ConnectResult.notReady ++
          (ConnectResult.notReady :: extra) := by
      rw [List.replicate_succ' 119]
      simp
    have h : guiRun (List.replicate 120 .notReady ++ extra) guiStart =
        guiRun (ConnectResult.notReady :: extra) (guiFalseState 119) := by
      rw [hsplit, guiRun_append, guiStart_eq_falseState,
        guiRun_replicate 119 0 (by omega)]
    have hact : (guiFalseState 119).timerActive = true := rfl
    have htick : guiTick .notReady (guiFalseState 119) =
        ⟨120, 120, false, false, false, true, 1, 120, false,
          ["Timed out waiting for Spotify"], some 1, false⟩ := rfl
    have hrun : guiRun (ConnectResult.notReady :: extra) (guiFalseState 119) =
        ⟨120, 120, false, false, false, true, 1, 120, false,
          ["Timed out waiting for Spotify"], some 1, false⟩ := by
      have hstep : guiRun (ConnectResult.notReady :: extra) (guiFalseState 119) =
          guiRun extra (guiTick .notReady (guiFalseState 119)) := by
        simp [guiRun, hact]
      rw [hstep, htick, guiRun_inactive _ _ rfl]
    rw [h, hrun]
    exact ⟨rfl, rfl, rfl, rfl⟩
  · intro k hk extra
    have h : guiRun (List.replicate k .notReady ++ .success :: extra) guiStart =
        guiRun (ConnectResult.success :: extra) (guiFalseState k) := by
      rw [guiRun_append, guiStart_eq_falseState, guiRun_replicate k 0 (by omega),
        Nat.zero_add]
    have hact : (guiFalseState k).timerActive = true := rfl
    have hto : ¬(120 ≤ k + 1) := by omega
    have htickActive : (guiTick .success (guiFalseState k)).timerActive = false := by
      by_cases hk1 : k = 1 <;> simp [guiTick, guiFalseState, hk1, hto]
    rw [h]
    simp only [guiRun, hact, if_true, guiRun_inactive extra _ htickActive]
    by_cases hk1 : k = 1 <;>
      simp [guiTick, guiFalseState, hk1, hto]

/-- C1 witness: with always-NotReady the full run makes 120 attempts; with a
success on the third attempt the run connects after exactly 3 attempts. -/
theorem C1_witness :
    (guiRun (List.replicate 120 .notReady ++ []) guiStart).attempts = 120 ∧
    (guiRun (List.replicate 2 .notReady ++ .success :: []) guiStart).connected
        = true ∧
    (guiRun (List.replicate 2 .notReady ++ .success :: []) guiStart).attempts
        = 3 :=
  ⟨(C1_bootstrap_bounded_retry.1 []).1,
   (C1_bootstrap_bounded_retry.2 2 (by omega) []).1,
   (C1_bootstrap_bounded_retry.2 2 (by omega) []).2.2.2.2⟩

/-! ## CLI loop lemmas -/

/-- An always-NotReady, never-cancelled CLI run returns False, performs one
connect call per remaining iteration, and prints the timeout message. -/
theorem cliLoop_timeout_run (connect : Nat → ConnectResult)
    (cancel : Nat → Bool) (msg : String)
    (hc : ∀ i, connect i = .notReady) (hk : ∀ i, cancel i = false) :
    ∀ (remaining counter : Nat) (printed : List String) (n : Nat),
      (cliLoop connect cancel msg remaining counter printed n).result = false ∧
      (cliLoop connect cancel msg remaining counter printed n).attempts
          = n + remaining ∧
      "Timed out" ∈ (cliLoop connect cancel msg remaining counter printed n).printed := by
  intro remaining
  induction remaining with
  | zero =>
    intro counter printed n
    simp [cliLoop]
  | succ m ih =>
    intro counter printed n
    simp only [cliLoop, hc counter, hk counter, Bool.false_eq_true, if_false]
    obtain ⟨h1, h2, h3⟩ :=
      ih (counter + 1) (if counter = 0 then printed ++ [msg] else printed) (n + 1)
    exact ⟨h1, h2.trans (by omega), h3⟩

/-- A CLI run whose first `k` sleeps are uninterrupted, whose `k`-th sleep is
interrupted by the user, and whose first `k + 1` connect calls all raise
NotReady, returns False after exactly `k + 1` attempts, and everything it
prints is either inherited or the waiting message (in particular the timeout
message is never printed). -/
theorem cliLoop_cancel_run (connect : Nat → ConnectResult)
    (cancel : Nat → Bool) (msg : String) :
    ∀ (k remaining counter : Nat) (printed : List String) (n : Nat),
      k < remaining →
      (∀ i, i ≤ k → connect (counter + i) = .notReady) →
      (∀ i, i < k → cancel (counter + i) = false) →
      cancel (counter + k) = true →
      (cliLoop connect cancel msg remaining counter printed n).result = false ∧
      (cliLoop connect cancel msg remaining counter printed n).attempts
          = n + k + 1 ∧
      (∀ s ∈ (cliLoop connect cancel msg remaining counter printed n).printed,
        s ∈ printed ∨ s = msg) := by
  intro k
  induction k with
  | zero =>
    intro remaining counter printed n hlt hconn _hnc hcan
    obtain ⟨m, rfl⟩ : ∃ m, remaining = m + 1 := ⟨remaining - 1, by omega⟩
    have h0 : connect counter = .notReady := by simpa using hconn 0 (Nat.le_refl 0)
    have hc0 : cancel counter = true := by simpa using hcan
    simp only [cliLoop, h0, hc0, if_true]
    refine ⟨by simp, by simp, ?_⟩
    intro s hs
    by_cases hz : counter = 0
    · simp only [hz, if_true] at hs
      rcases List.mem_append.mp hs with h | h
      · exact Or.inl h
      · exact Or.inr (List.mem_singleton.mp h)
    · simp only [hz, if_false] at hs
      exact Or.inl hs
  | succ k ih =>
    intro remaining counter printed n hlt hconn hnc hcan
    obtain ⟨m, rfl⟩ : ∃ m, remaining = m + 1 := ⟨remaining - 1, by omega⟩
    have h0 : connect counter = .notReady := by simpa using hconn 0 (Nat.zero_le _)
    have hc0 : cancel counter = false := by simpa using hnc 0 (Nat.succ_pos k)
    simp only [cliLoop, h0, hc0, Bool.false_eq_true, if_false]
    obtain ⟨h1, h2, h3⟩ := ih m (counter + 1)
      (if counter = 0 then printed ++ [msg] else printed) (n + 1)
      (by omega)
      (fun i hi => by
        rw [show counter + 1 + i = counter + (i + 1) from by omega]
        exact hconn (i + 1) (by omega))
      (fun i hi => by
        rw [show counter + 1 + i = counter + (i + 1) from by omega]
        exact hnc (i + 1) (by omega))
      (by
        rw [show counter + 1 + k = counter + (k + 1) from by omega]
        exact hcan)
    refine ⟨h1, h2.trans (by omega), ?_⟩
    intro s hs
    rcases h3 s hs with h | h
    · by_cases hz : counter = 0
      · simp only [hz, if_true] at h
        rcases List.mem_append.mp h with hh | hh
        · exact Or.inl hh
        · exact Or.inr (List.mem_singleton.mp hh)
      · simp only [hz, if_false] at h
        exact Or.inl h
    · exact Or.inr h

/-- Once the counter has passed 0, the CLI loop never prints the waiting
message again: the count of `msg` among the printed lines is unchanged. -/
theorem cliLoop_count_of_pos (connect : Nat → ConnectResult)
    (cancel : Nat → Bool) (msg : String) (hmsg : msg ≠ "Timed out") :
    ∀ (remaining counter : Nat) (printed : List String) (n : Nat),
      1 ≤ counter →
      (cliLoop connect cancel msg remaining counter printed n).printed.count msg
        = printed.count msg := by
  intro remaining
  induction remaining with
  | zero =>
    intro counter printed n _
    simp [cliLoop, List.count_append, List.count_singleton, hmsg,
      List.count_cons]
  | succ m ih =>
    intro counter printed n hpos
    have hz : ¬counter = 0 := by omega
    cases hcr : connect counter with
    | success => simp [cliLoop, hcr]
    | notReady =>
      simp only [cliLoop, hcr, hz, if_false]
      by_cases hk : cancel counter
      · simp [hk]
      · simp only [hk, Bool.false_eq_true, if_false]
        exact ih (counter + 1) printed (n + 1) (by omega)

/-! ## C4 -/

/-- C4 (counterexample): the cancellation outcome is not distinguishable by
the caller from the timeout outcome: with a connect function that always
raises NotReady, a run cancelled during the 6th sleep returns exactly the
same value (False) as the full timed-out run. -/
theorem C4_counterexample :
    (wait_for_connection (fun _ => .notReady) (fun i => decide (i = 5))
        "Waiting for a Spotify session to be ready..." 30).result =
      (wait_for_connection (fun _ => .notReady) (fun _ => false)
        "Waiting for a Spotify session to be ready..." 30).result ∧
    (wait_for_connection (fun _ => .notReady) (fun i => decide (i = 5))
        "Waiting for a Spotify session to be ready..." 30).result = false := by
  exact ⟨rfl, rfl⟩

/-- C4 (amended): a user-initiated cancellation during the bootstrap retry
sleep terminates the loop immediately (exactly k + 1 attempts when cancelled
during the sleep of iteration k) and returns False — the same value the
timeout outcome returns — without printing the "Timed out" message; the two
outcomes differ only in the printed output, not in the value returned to the
caller. -/
theorem C4_cancel_terminates (connect : Nat → ConnectResult) (msg : String)
    (att k : Nat) (hk : k < att)
    (hconn : ∀ i, i ≤ k → connect i = .notReady)
    (hmsg : msg ≠ "Timed out") :
    ((wait_for_connection connect (fun i => decide (i = k)) msg att).result
        = false ∧
     (wait_for_connection connect (fun i => decide (i = k)) msg att).attempts
        = k + 1 ∧
     "Timed out" ∉
       (wait_for_connection connect (fun i => decide (i = k)) msg att).printed) ∧
    ((∀ i, connect i = .notReady) →
     (wait_for_connection connect (fun _ => false) msg att).result = false ∧
     "Timed out" ∈
       (wait_for_connection connect (fun _ => false) msg att).printed) := by
  constructor
  · obtain ⟨h1, h2, h3⟩ := cliLoop_cancel_run connect (fun i => decide (i = k))
      msg k att 0 [] 0 hk
      (fun i hi => by simpa using hconn i hi)
      (fun i hi => by simp; omega)
      (by simp)
    refine ⟨h1, h2.trans (by omega), ?_⟩
    intro hmem
    rcases h3 _ hmem with h | h
    · simp at h
    · exact hmsg h.symm
  · intro hall
    obtain ⟨h1, _h2, h3⟩ := cliLoop_timeout_run connect (fun _ => false) msg
      hall (fun _ => rfl) att 0 [] 0
    exact ⟨h1, h3⟩

/-- C4 witness: always-NotReady connect, cancel during the 6th sleep versus
no cancellation at all, 30 allowed attempts. -/
theorem C4_witness :
    (wait_for_connection (fun _ => .notReady) (fun i => decide (i = 5))
        "Waiting for a Spotify session to be ready..." 30).result = false ∧
    (wait_for_connection (fun _ => .notReady) (fun i => decide (i = 5))
        "Waiting for a Spotify session to be ready..." 30).attempts = 6 ∧
    (wait_for_connection (fun _ => .notReady) (fun _ => false)
        "Waiting for a Spotify session to be ready..." 30).result = false :=
  ⟨((C4_cancel_terminates (fun _ => .notReady)
      "Waiting for a Spotify session to be ready..." 30 5 (by omega)
      (fun _ _ => rfl) (by decide)).1).1,
   ((C4_cancel_terminates (fun _ => .notReady)
      "Waiting for a Spotify session to be ready..." 30 5 (by omega)
      (fun _ _ => rfl) (by decide)).1).2.1,
   ((C4_cancel_terminates (fun _ => .notReady)
      "Waiting for a Spotify session to be ready..." 30 5 (by omega)
      (fun _ _ => rfl) (by decide)).2 (fun _ => rfl)).1⟩

/-! ## C9 -/

/-- C9: the waiting message is surfaced exactly once per bootstrap run,
after the first NotReady failure, and never when the first attempt succeeds.
CLI loop: if the first connect raises NotReady the message is printed exactly
once over the whole run, and if the first connect succeeds nothing at all is
printed.  GUI loop: a failed first attempt shows the waiting label exactly
once no matter how the run continues, and a successful first attempt never
shows it. -/
theorem C9_waiting_message_once (connect : Nat → ConnectResult)
    (cancel : Nat → Bool) (msg : String) (att : Nat) (r : ConnectResult)
    (rest l : List ConnectResult) (hmsg : msg ≠ "Timed out") :
    (connect 0 = .notReady → 1 ≤ att →
      (wait_for_connection connect cancel msg att).printed.count msg = 1) ∧
    (connect 0 = .success → 1 ≤ att →
      (wait_for_connection connect cancel msg att).printed = []) ∧
    (guiRun (.notReady :: r :: rest) guiStart).showCount = 1 ∧
    (guiRun (.success :: l) guiStart).showCount = 0 := by
  refine ⟨?_, ?_, ?_, ?_⟩
  · intro h0 hatt
    obtain ⟨m, rfl⟩ : ∃ m, att = m + 1 := ⟨att - 1, by omega⟩
    unfold wait_for_connection
    by_cases hk : cancel 0 = true
    · simp [cliLoop, h0, hk, List.count_singleton]
    · have hk2 : cancel 0 = false := by simpa using hk
      have step : cliLoop connect cancel msg (m + 1) 0 [] 0 =
          cliLoop connect cancel msg m 1 [msg] 1 := by
        simp [cliLoop, h0, hk2]
      rw [step, cliLoop_count_of_pos connect cancel msg hmsg m 1 [msg] 1
        (by omega)]
      simp
  · intro h0 hatt
    obtain ⟨m, rfl⟩ : ∃ m, att = m + 1 := ⟨att - 1, by omega⟩
    unfold wait_for_connection
    simp [cliLoop, h0]
  · have h1 : guiTick .notReady guiStart = guiFalseState 1 := by
      rw [guiStart_eq_falseState]
      exact guiFalseState_step 0 (by omega)
    have hact0 : guiStart.timerActive = true := rfl
    have hact1 : (guiFalseState 1).timerActive = true := rfl
    simp only [guiRun, hact0, if_true, h1, hact1]
    have h2 : (guiTick r (guiFalseState 1)).showCount = 1 ∧
        2 ≤ (guiTick r (guiFalseState 1)).connCounter := by
      cases r <;> exact ⟨rfl, by decide⟩
    rw [guiRun_showCount_stable rest _ h2.2]
    exact h2.1
  · have h1 : guiTick .success guiStart =
        ⟨1, 120, false, true, false, false, 0, 1, true, [], none, false⟩ := rfl
    have hact0 : guiStart.timerActive = true := rfl
    simp only [guiRun, hact0, if_true, h1]
    rw [guiRun_inactive _ _ rfl]

/-- C9 witness: concrete always-failing and first-success runs of both
bootstrap loops. -/
theorem C9_witness :
    (wait_for_connection (fun _ => .notReady) (fun _ => false)
        "Waiting for a Spotify session to be ready..." 30).printed.count
      "Waiting for a Spotify session to be ready..." = 1 ∧
    (wait_for_connection (fun _ => .success) (fun _ => false)
        "Waiting for a Spotify session to be ready..." 30).printed = [] ∧
    (guiRun [.notReady, .notReady, .notReady] guiStart).showCount = 1 ∧
    (guiRun [.success] guiStart).showCount = 0 :=
  ⟨(C9_waiting_message_once (fun _ => .notReady) (fun _ => false)
      "Waiting for a Spotify session to be ready..." 30
      .notReady [.notReady] [] (by decide)).1 rfl (by omega),
   (C9_waiting_message_once (fun _ => .success) (fun _ => false)
      "Waiting for a Spotify session to be ready..." 30
      .notReady [] [] (by decide)).2.1 rfl (by omega),
   (C9_waiting_message_once (fun _ => .notReady) (fun _ => false)
      "Waiting for a Spotify session to be ready..." 30
      .notReady [.notReady] [] (by decide)).2.2.1,
   (C9_waiting_message_once (fun _ => .notReady) (fun _ => false)
      "Waiting for a Spotify session to be ready..." 30
      .notReady [.notReady] [] (by decide)).2.2.2⟩
